import Mathlib

/-!
Verification of the plan-interpretation and action-dispatch pipeline of the
qbraid-chat extension, shallowly embedded from `src/webview/messageHandler.ts`
and `src/api/qbraidApi.ts`.

JavaScript runtime values flowing through the pipeline (parsed JSON, plan
fields, API payloads) are modelled by the inductive type `JVal`; JSON numbers
are modelled as integers, which is adequate for every property studied here
(truthiness and sign of the `shots` field, qubit counts).  Network transports
are modelled as oracles `Request → Except String JVal`: the dispatcher builds
the request, the oracle supplies the remote response or a thrown error
message.  Interactive pieces (the VS Code error dialog and the credential
input box) are modelled by explicit `userAccepts` / `newKey` inputs.
-/

namespace QbraidChat

/-- A JavaScript/JSON runtime value. -/
inductive JVal where
  | jnull : JVal
  | jbool (b : Bool) : JVal
  | jnum (n : Int) : JVal
  | jstr (s : String) : JVal
  | jarr (elems : List JVal) : JVal
  | jobj (fields : List (String × JVal)) : JVal

/-- JavaScript truthiness of a value (`!v` in the source negates this). -/
def JVal.truthy : JVal → Bool
  | .jnull => false
  | .jbool b => b
  | .jnum n => decide (n ≠ 0)
  | .jstr s => decide (s ≠ "")
  | .jarr _ => true
  | .jobj _ => true

/-- Truthiness of a possibly-absent (`undefined`) value. -/
def truthyOpt : Option JVal → Bool
  | none => false
  | some v => v.truthy

/-- First binding of a key in an object's field list. -/
def lookupField : List (String × JVal) → String → Option JVal
  | [], _ => none
  | (k', v) :: rest, k => if k' = k then some v else lookupField rest k

/-- JavaScript property access `v[k]`: `none` models `undefined`.
Property access on primitives yields `undefined`; objects use their fields. -/
def jsGet (v : JVal) (k : String) : Option JVal :=
  match v with
  | .jobj fs => lookupField fs k
  | _ => none

/-- `typeof v === "object" && v !== null` (arrays are objects in JS). -/
def JVal.isObjLike : JVal → Bool
  | .jobj _ => true
  | .jarr _ => true
  | _ => false

/-- `typeof v === "string"`. -/
def JVal.isString : JVal → Bool
  | .jstr _ => true
  | _ => false

/-! ### Substring scanning

`String.prototype.match` with the patterns of the source is modelled by a
left-to-right scan over the character list.  `headMatches pat cs` holds when
`pat` is an initial segment of `cs`. -/

def headMatches : List Char → List Char → Bool
  | [], _ => true
  | _ :: _, [] => false
  | p :: ps, c :: cs => p = c && headMatches ps cs

/-- Suffix immediately after the first (leftmost) occurrence of `pat`. -/
def afterFirst (pat : List Char) : List Char → Option (List Char)
  | [] => if headMatches pat [] then some [] else none
  | c :: cs =>
    if headMatches pat (c :: cs) then some ((c :: cs).drop pat.length)
    else afterFirst pat cs

/-- Characters strictly before the first occurrence of `pat` (none if absent). -/
def takeUntil (pat : List Char) : List Char → Option (List Char)
  | [] => if headMatches pat [] then some [] else none
  | c :: cs =>
    if headMatches pat (c :: cs) then some []
    else (takeUntil pat cs).map (fun t => c :: t)

/-- `s.includes(pat)` from JavaScript, for the error-message classification. -/
def containsSubstr (s pat : String) : Bool :=
  (afterFirst pat.toList s.toList).isSome

/-! ### PlanExtractor (messageHandler.ts lines 180-193)

`llmPlanReply.match(/` ```json `([\s\S]*?)` ``` `/)` extracts the content
between the first occurrence of the opening fence and the next closing fence.
As the lazy group matches the shortest run up to the next triple backtick,
and an unclosed first opening fence implies no later fence can exist (any
later opening fence contains a closing one), the regex match is exactly:
suffix after the first opening fence, cut at the next closing fence. -/

def extractFenced (reply : String) : Option String :=
  match afterFirst ("```json".toList) reply.toList with
  | none => none
  | some rest =>
    match takeUntil ("```".toList) rest with
    | none => none
    | some content => some (String.mk content)

/-- The initial plan `\x7b action: "none" \x7d` of messageHandler.ts line 182. -/
def defaultPlan : JVal :=
  .jobj [("action", .jstr "none")]

/-- Plan extraction: locate the fenced block, trim it, parse it.  `parse`
models `JSON.parse` (returning `none` where the parser would throw); the
`try/catch` of the source keeps the default plan on a parse failure, and a
missing fence leaves the default plan untouched. -/
def extractPlan (parse : String → Option JVal) (reply : String) : JVal :=
  match extractFenced reply with
  | none => defaultPlan
  | some content =>
    match parse content.trim with
    | some p => p
    | none => defaultPlan

/-! ### Qubit-count pattern (qbraidApi.ts lines 101-106)

`code.match(/qubit\[(\d+)\]/)` : the first position where the literal
`qubit[` is followed by a nonempty digit run and a closing bracket; the
captured digits are read as a decimal number. -/

/-- Decimal value of a digit run (`parseInt(match[1])`). -/
def digitsToNat (ds : List Char) : Nat :=
  ds.foldl (fun acc c => acc * 10 + (c.toNat - 48)) 0

/-- One attempt of the pattern `qubit\[(\d+)\]` anchored at the head. -/
def matchQubitAt (cs : List Char) : Option Nat :=
  if headMatches ("qubit[".toList) cs then
    let rest := cs.drop 6
    let ds := rest.takeWhile Char.isDigit
    if ds.isEmpty then none
    else
      match rest.drop ds.length with
      | ']' :: _ => some (digitsToNat ds)
      | _ => none
  else none

/-- Leftmost match of the pattern over the whole string. -/
def scanQubit : List Char → Option Nat
  | [] => matchQubitAt []
  | c :: cs =>
    match matchQubitAt (c :: cs) with
    | some n => some n
    | none => scanQubit cs

/-- `circuitNumQubits`: the captured count, or 1 when the pattern is absent. -/
def qubitCount (code : String) : Nat :=
  (scanQubit code.toList).getD 1

/-! ### escapeHtml (messageHandler.ts lines 381-391) -/

/-- The double-quote character. -/
def dquoteChar : Char := Char.ofNat 34

/-- The single-quote character. -/
def squoteChar : Char := Char.ofNat 39

/-- `s.replace(/c/g, rep)` for a single-character pattern. -/
def replaceChar (c : Char) (rep : List Char) (l : List Char) : List Char :=
  l.flatMap (fun ch => if ch = c then rep else [ch])

/-- The string branch of `escapeHtml`: five sequential global replacements,
ampersand first. -/
def escapeHtmlString (s : String) : String :=
  String.mk
    (replaceChar squoteChar ("&#039;".toList)
      (replaceChar dquoteChar ("&quot;".toList)
        (replaceChar '>' ("&gt;".toList)
          (replaceChar '<' ("&lt;".toList)
            (replaceChar '&' ("&amp;".toList) s.toList)))))

/-- `escapeHtml(value)`: non-strings are returned unchanged (despite the
declared `string` return type); strings are entity-escaped. -/
def escapeHtml (value : JVal) : JVal :=
  match value with
  | .jstr s => .jstr (escapeHtmlString s)
  | v => v

/-! ### Transport requests (qbraidApi.ts)

Each executor issues at most one HTTP request; the request carries exactly
the data the source puts into the URL or body.  URL-encoding and the
`api-key` header are uniform and omitted. -/

/-- Body of the createJob POST (qbraidApi.ts lines 93-107). -/
structure CreateJobBody where
  qbraidDeviceId : JVal
  shots : JVal
  tags : JVal
  bitcode : Option JVal
  openQasm : Option JVal
  circuitNumQubits : Nat

/-- One outgoing network request of the transport layer. -/
inductive Request where
  | createJob (body : CreateJobBody)
  | listJobs
  | cancelJob (jobId : JVal)
  | deleteJob (jobId : JVal)
  | getDevices (params : List (String × JVal))
  | sendChat (prompt model stream : JVal)
  | getModels

/-! ### Type guards of qbraidApi.ts -/

/-- `isQuantumJob`: presence of the four keys (lines 174-183). -/
def isQuantumJob (v : JVal) : Bool :=
  match v with
  | .jobj fs =>
    (lookupField fs "_id").isSome && (lookupField fs "qbraidJobId").isSome &&
    (lookupField fs "status").isSome && (lookupField fs "provider").isSome
  | _ => false

/-- `isQuantumDevice`: `name` and `provider` strings, `deviceDescription`
string or null (lines 362-374). -/
def isQuantumDevice (v : JVal) : Bool :=
  match v with
  | .jobj fs =>
    (match lookupField fs "name" with | some (.jstr _) => true | _ => false) &&
    (match lookupField fs "provider" with | some (.jstr _) => true | _ => false) &&
    (match lookupField fs "deviceDescription" with
     | some (.jstr _) => true | some .jnull => true | _ => false)
  | _ => false

/-- `isMessageResponse`: a `message` field holding a string (lines 240-247). -/
def isMessageResponseStr (v : JVal) : Option String :=
  match v with
  | .jobj fs =>
    match lookupField fs "message" with
    | some (.jstr m) => some m
    | _ => none
  | _ => none

/-- `isChatResponse`: a `content` field holding a string (lines 455-462). -/
def isChatResponseStr (v : JVal) : Option String :=
  match v with
  | .jobj fs =>
    match lookupField fs "content" with
    | some (.jstr c) => some c
    | _ => none
  | _ => none

/-! ### Executors -/

/-- `createQuantumJob` (qbraidApi.ts lines 80-130) up to the response's
format check.  Returns the call's result (payload or thrown error message)
together with the list of network requests actually issued.  With both or
neither encoding truthy the function throws before any request; with a
truthy non-string encoding, `.match` on a non-string throws a TypeError,
also before any request. -/
def createQuantumJob (respond : Request → Except String JVal)
    (deviceId shots : JVal) (bitcode openQasm : Option JVal) :
    Except String JVal × List Request :=
  if (!truthyOpt bitcode && !truthyOpt openQasm) ||
     (truthyOpt bitcode && truthyOpt openQasm) then
    (.error "Provide either bitcode OR openQasm (but not both) for createJob.", [])
  else if truthyOpt bitcode then
    match bitcode with
    | some (.jstr code) =>
      let req := Request.createJob
        ⟨deviceId, shots, .jobj [], some (.jstr code), none, qubitCount code⟩
      match respond req with
      | .error e => (.error e, [req])
      | .ok v =>
        (if v.isObjLike then .ok v else .error "Invalid response format", [req])
    | _ => (.error "TypeError: bitcode.match is not a function", [])
  else
    match openQasm with
    | some (.jstr code) =>
      let req := Request.createJob
        ⟨deviceId, shots, .jobj [], none, some (.jstr code), qubitCount code⟩
      match respond req with
      | .error e => (.error e, [req])
      | .ok v =>
        (if v.isObjLike then .ok v else .error "Invalid response format", [req])
    | _ => (.error "TypeError: openQasm.match is not a function", [])

/-- `listAllJobs` (lines 140-165): the response must carry a `jobsArray`
whose elements all pass `isQuantumJob`. -/
def listAllJobs (respond : Request → Except String JVal) :
    Except String JVal × List Request :=
  match respond .listJobs with
  | .error e => (.error e, [.listJobs])
  | .ok v =>
    match jsGet v "jobsArray" with
    | some (.jarr jobs) =>
      (if jobs.all isQuantumJob then .ok (.jarr jobs)
       else .error "Invalid response format", [.listJobs])
    | _ => (.error "Invalid response format", [.listJobs])

/-- `cancelQuantumJob` (lines 194-231). -/
def cancelQuantumJob (respond : Request → Except String JVal) (jobId : JVal) :
    Except String JVal × List Request :=
  match respond (.cancelJob jobId) with
  | .error e => (.error e, [.cancelJob jobId])
  | .ok v =>
    match isMessageResponseStr v with
    | some m => (.ok (.jobj [("message", .jstr m)]), [.cancelJob jobId])
    | none => (.error "Invalid response format", [.cancelJob jobId])

/-- `deleteQuantumJob` (lines 258-299). -/
def deleteQuantumJob (respond : Request → Except String JVal) (jobId : JVal) :
    Except String JVal × List Request :=
  match respond (.deleteJob jobId) with
  | .error e => (.error e, [.deleteJob jobId])
  | .ok v =>
    match jsGet v "data", jsGet v "message" with
    | some jobData, some msg =>
      (if isQuantumJob jobData then
        .ok (.jobj [("message", msg), ("job", jobData)])
       else .error "Invalid job data format", [.deleteJob jobId])
    | _, _ => (.error "Invalid response format", [.deleteJob jobId])

/-- The filter keys `getQuantumDevices` accepts (qbraidApi.ts line 317). -/
def allowedFilters : List String := ["provider", "type", "status", "isAvailable"]

/-- `Object.entries(v)` for the values a JSON plan can hold: object fields,
array elements with their indices as keys, a string's characters with their
indices as keys, and no entries for other primitives. -/
def jsEntries : JVal → List (String × JVal)
  | .jobj fs => fs
  | .jarr xs => xs.enum.map (fun p => (toString p.1, p.2))
  | .jstr s => s.toList.enum.map (fun p => (toString p.1, .jstr (String.singleton p.2)))
  | _ => []

/-- The query parameters appended to the devices URL: entries of a truthy
`filters` value restricted to the allow-list (lines 317-326). -/
def deviceParams (filters : Option JVal) : List (String × JVal) :=
  match filters with
  | some f =>
    if f.truthy then (jsEntries f).filter (fun kv => allowedFilters.contains kv.1)
    else []
  | none => []

/-- `getQuantumDevices` (lines 311-353): one GET with the allowed filters;
an array response whose elements all pass `isQuantumDevice` is truncated
with `slice(0, 10)`, anything else throws. -/
def getQuantumDevices (respond : Request → Except String JVal)
    (filters : Option JVal) : Except String JVal × List Request :=
  let req := Request.getDevices (deviceParams filters)
  match respond req with
  | .error e => (.error e, [req])
  | .ok v =>
    match v with
    | .jarr xs =>
      (if xs.all isQuantumDevice then .ok (.jarr (xs.take 10))
       else .error "Invalid response format from getQuantumDevices API.", [req])
    | _ => (.error "Invalid response format from getQuantumDevices API.", [req])

/-- `sendChat` (lines 412-446): the reply's `content` string (empty string
if the field is falsy, via `data.content || ""`). -/
def sendChat (respond : Request → Except String JVal)
    (prompt model stream : JVal) : Except String JVal × List Request :=
  let req := Request.sendChat prompt model stream
  match respond req with
  | .error e => (.error e, [req])
  | .ok v =>
    match isChatResponseStr v with
    | some c => (.ok (.jstr c), [req])
    | none => (.error "Invalid response format", [req])

/-- `fetchModels` (lines 384-399): no format validation of the payload. -/
def fetchModels (respond : Request → Except String JVal) :
    Except String JVal × List Request :=
  match respond .getModels with
  | .error e => (.error e, [.getModels])
  | .ok v => (.ok v, [.getModels])

/-! ### ActionDispatcher (messageHandler.ts lines 195-269)

The `switch (plan.action)` block plus the trailing fixup
`if (!rawApiResponse && actionDesc) rawApiResponse = \x7b error: actionDesc \x7d`.
An exception thrown inside the switch skips the fixup and propagates to the
handler's catch block; this is the `threw` outcome. -/

/-- Result of the dispatch step: either the handler continues with
`rawApiResponse` (after the fixup) and `actionDesc`, or an exception
propagates to the surrounding catch. -/
inductive DispatchOutcome where
  | completed (rawApiResponse : JVal) (actionDesc : String)
  | threw (message : String)

/-- The post-switch fixup of line 267-269. -/
def fixup (raw : JVal) (desc : String) : JVal :=
  if !raw.truthy && decide (desc ≠ "") then .jobj [("error", .jstr desc)] else raw

/-- The `switch` scrutinee: `plan.action` strictly compared against the
seven string cases, so any non-string (or absent) action reaches the
default branch, modelled by the empty string (never a case label). -/
def actionOf (plan : JVal) : String :=
  match jsGet plan "action" with
  | some (.jstr s) => s
  | _ => ""

/-- Lift an executor's result into the handler's state after the switch. -/
def execStep (r : Except String JVal × List Request) (desc : String) :
    DispatchOutcome × List Request :=
  match r with
  | (.ok v, reqs) => (.completed (fixup v desc) desc, reqs)
  | (.error e, reqs) => (.threw e, reqs)

/-- A failed per-action validation: `actionDesc` is set, no executor runs,
and the fixup turns the null response into the error payload. -/
def validationFailed (desc : String) : DispatchOutcome × List Request :=
  (.completed (fixup .jnull desc) desc, [])

/-- Whether the parsed plan is the JavaScript `null` value. -/
def JVal.isNull : JVal → Bool
  | .jnull => true
  | _ => false

/-- The dispatch step of `handleSendMessage`.  `respond` supplies remote
responses; the returned list records every network request issued.  A null
plan (`JSON.parse("null")`) throws on the `plan.action` access itself. -/
def dispatch (respond : Request → Except String JVal) (plan : JVal) :
    DispatchOutcome × List Request :=
  if plan.isNull then
    (.threw "TypeError: Cannot read properties of null (reading 'action')", [])
  else
    let act := actionOf plan
    if act = "createJob" then
      if !truthyOpt (jsGet plan "qbraidDeviceId") || !truthyOpt (jsGet plan "shots") ||
         (!truthyOpt (jsGet plan "bitcode") && !truthyOpt (jsGet plan "openQasm")) then
        validationFailed "Invalid createJob request: missing deviceId, shots, or code."
      else
        execStep
          (createQuantumJob respond
            ((jsGet plan "qbraidDeviceId").getD .jnull)
            ((jsGet plan "shots").getD .jnull)
            (jsGet plan "bitcode") (jsGet plan "openQasm"))
          "createJob"
    else if act = "listJobs" then
      execStep (listAllJobs respond) "listJobs"
    else if act = "cancelJob" then
      if !truthyOpt (jsGet plan "jobId") then
        validationFailed "Invalid cancelJob request: missing jobId."
      else
        execStep (cancelQuantumJob respond ((jsGet plan "jobId").getD .jnull)) "cancelJob"
    else if act = "deleteJob" then
      if !truthyOpt (jsGet plan "jobId") then
        validationFailed "Invalid deleteJob request: missing jobId."
      else
        execStep (deleteQuantumJob respond ((jsGet plan "jobId").getD .jnull)) "deleteJob"
    else if act = "getDevices" then
      execStep (getQuantumDevices respond (jsGet plan "filters")) "getDevices"
    else if act = "sendChat" then
      if !truthyOpt (jsGet plan "prompt") then
        validationFailed "Invalid sendChat request: missing prompt."
      else
        execStep
          (sendChat respond ((jsGet plan "prompt").getD .jnull)
            (if truthyOpt (jsGet plan "model") then (jsGet plan "model").getD .jnull
             else .jstr "gpt-4o-mini")
            (if truthyOpt (jsGet plan "stream") then (jsGet plan "stream").getD .jnull
             else .jbool false))
          "sendChat"
    else if act = "getModels" then
      execStep (fetchModels respond) "getModels"
    else
      -- default: only a log line; actionDesc stays "" so the fixup is skipped
      (.completed (fixup .jnull "") "", [])

/-- A dispatch outcome that surfaces a validation failure: the handler
continues with the error-shaped payload built by the fixup from a
non-empty `actionDesc`. -/
def DispatchOutcome.isValidationFailure (o : DispatchOutcome) : Prop :=
  ∃ d, o = .completed (.jobj [("error", .jstr d)]) d ∧ d ≠ ""

/-! ### The webview handlers (messageHandler.ts lines 32-356)

Messages posted with `panel.webview.postMessage` are recorded in order.
The interactive error dialog (`showErrorMessage` + `updateApiKey`) is
modelled by the inputs `userAccepts` (the user clicked "Update API Key")
and `newKey` (the credential the input box produced, if any). -/

/-- A message posted to the webview. -/
inductive Msg where
  | typing
  | clearError
  | models (payload : JVal)
  | answer (content : String)
  | error (content : String)

/-- The substring test `err.message.includes("Invalid API key")` used to
classify authentication failures in both catch blocks. -/
def isAuthError (e : String) : Bool :=
  containsSubstr e "Invalid API key"

/-- Result of one `handleFetchModels` run: the posted messages, the API keys
passed to the successive `fetchModels` transport calls, and the information
popup (if any). -/
structure FetchModelsResult where
  posted : List Msg
  fetchKeys : List String
  info : Option String

/-- `handleFetchModels` (lines 32-93).  `fetch` models the `fetchModels`
transport as a function of the API key in use. -/
def handleFetchModels (apiKey : Option String)
    (fetch : String → Except String JVal)
    (userAccepts : Bool) (newKey : Option String) : FetchModelsResult :=
  match apiKey with
  | none => ⟨[.error "API key not found."], [], none⟩
  | some k =>
    match fetch k with
    | .ok models => ⟨[.clearError, .models models], [k], none⟩
    | .error e =>
      if isAuthError e then
        if userAccepts then
          match newKey with
          | some k2 =>
            match fetch k2 with
            | .ok models2 =>
              ⟨[.clearError, .models models2], [k, k2],
               some "qBraid API Key updated and models fetched successfully."⟩
            | .error e2 => ⟨[.error e2], [k, k2], none⟩
          | none => ⟨[], [k], none⟩
        else ⟨[], [k], none⟩
      else ⟨[.clearError, .error e], [k], none⟩

/-- Result of one `handleSendMessage` run: posted messages, network requests
of the dispatch step, how many times each of the two LLM calls ran, and the
information popup (if any). -/
structure SendResult where
  posted : List Msg
  requests : List Request
  planCalls : Nat
  finalCalls : Nat
  info : Option String

/-- Messages the catch block of `handleSendMessage` posts (lines 331-355):
nothing on an authentication failure (only the dialog is shown), otherwise
`clearError` followed by the error text. -/
def catchPosted (e : String) : List Msg :=
  if isAuthError e then [] else [.clearError, .error e]

/-- The popup of the catch block's credential-update branch: shown when the
failure is an authentication failure, the user accepted the dialog, and the
input box yielded a key.  No step is retried. -/
def catchInfo (e : String) (userAccepts : Bool) (newKey : Option String) :
    Option String :=
  if isAuthError e && userAccepts && newKey.isSome then
    some "qBraid API Key updated. Please retry your request."
  else none

/-- `handleSendMessage` (lines 95-356).  `planReply` models the first
`callLLM` call (the planning prompt is fixed given the user message),
`parse` models `JSON.parse`, `respond` the transport layer, and
`finalReply` the second `callLLM` call.  The construction of the
second-stage prompt (`finalSystem`) is abstracted away: none of the
properties below depend on its text, only on whether the final call runs
and how it ends. -/
def handleSendMessage (apiKey : Option String)
    (planReply : Except String String)
    (parse : String → Option JVal)
    (respond : Request → Except String JVal)
    (finalReply : Except String String)
    (userAccepts : Bool) (newKey : Option String) : SendResult :=
  match apiKey with
  | none => ⟨[.error "API key not found."], [], 0, 0, none⟩
  | some _ =>
    match planReply with
    | .error e =>
      ⟨.typing :: catchPosted e, [], 1, 0, catchInfo e userAccepts newKey⟩
    | .ok reply =>
      let plan := extractPlan parse reply
      let res := dispatch respond plan
      match res.1 with
      | .threw e =>
        ⟨.typing :: catchPosted e, res.2, 1, 0, catchInfo e userAccepts newKey⟩
      | .completed _ _ =>
        match finalReply with
        | .error e =>
          ⟨.typing :: catchPosted e, res.2, 1, 1, catchInfo e userAccepts newKey⟩
        | .ok ans => ⟨[.typing, .clearError, .answer ans], res.2, 1, 1, none⟩

/-- Whether a posted message is an `error` message. -/
def Msg.isErrorMsg : Msg → Bool
  | .error _ => true
  | _ => false

/-- Number of `error` messages in a posted sequence. -/
def errorCount (msgs : List Msg) : Nat :=
  msgs.countP Msg.isErrorMsg

/-- `okPair prev cur`: if `cur` is an `error` message, the message right
before it must be `clearError`. -/
def okPair (prev cur : Msg) : Bool :=
  match cur with
  | .error _ => (match prev with | .clearError => true | _ => false)
  | _ => true

/-- Auxiliary scan carrying the previous message. -/
def epcAux (prev : Msg) : List Msg → Bool
  | [] => true
  | m :: rest => okPair prev m && epcAux m rest

/-- Every `error` message in the sequence is immediately preceded by a
`clearError` message (an `error` at the head has no predecessor). -/
def errorsPrecededByClear (msgs : List Msg) : Bool :=
  match msgs with
  | [] => true
  | m :: rest => (match m with | .error _ => false | _ => true) && epcAux m rest

/-! ### Concrete inputs used by counterexamples and witnesses -/

/-- An oracle for runs where no network call is expected. -/
def oracleFail : Request → Except String JVal :=
  fun _ => .error "unexpected network call"

/-- An oracle answering every request with a minimal job object. -/
def oracleJob : Request → Except String JVal :=
  fun _ => .ok (.jobj [("_id", .jstr "job-1")])

/-- A `JSON.parse` model that always fails. -/
def parseNone : String → Option JVal := fun _ => none

/-- The authentication-failure message every 401 branch throws. -/
def authFailMsg : String := "Invalid API key. Please update your qBraid API key."

/-- A createJob plan carrying both circuit encodings. -/
def bothEncodingsPlan : JVal :=
  .jobj [("action", .jstr "createJob"), ("qbraidDeviceId", .jstr "device-1"),
         ("shots", .jnum 100), ("bitcode", .jstr "bc"),
         ("openQasm", .jstr "OPENQASM 3.0;")]

/-- A createJob plan with a negative shot count and one encoding. -/
def negativeShotsPlan : JVal :=
  .jobj [("action", .jstr "createJob"), ("qbraidDeviceId", .jstr "device-1"),
         ("shots", .jnum (-5)),
         ("openQasm", .jstr "OPENQASM 3;qubit[2] q;")]

/-- A plan whose action is the degraded `"none"`. -/
def nonePlan : JVal := .jobj [("action", .jstr "none")]

/-- A getDevices plan with one allowed and one disallowed filter key. -/
def awsBogusPlan : JVal :=
  .jobj [("action", .jstr "getDevices"),
         ("filters", .jobj [("provider", .jstr "AWS"), ("bogus", .jstr "x")])]

/-- A minimal device object passing `isQuantumDevice`. -/
def sampleDevice : JVal :=
  .jobj [("name", .jstr "dev"), ("provider", .jstr "prov"),
         ("deviceDescription", .jnull)]

/-- A createJob plan with a single encoding and positive shots. -/
def okCreatePlan : JVal :=
  .jobj [("action", .jstr "createJob"), ("qbraidDeviceId", .jstr "device-1"),
         ("shots", .jnum 50), ("bitcode", .jstr "OPENQASM 3.0;\nqubit[4] q;\nh q;")]

/-- A createJob plan with a zero shot count. -/
def zeroShotsPlan : JVal :=
  .jobj [("action", .jstr "createJob"), ("qbraidDeviceId", .jstr "device-1"),
         ("shots", .jnum 0), ("bitcode", .jstr "bc")]

/-- A getDevices plan without filters. -/
def getDevicesPlan : JVal := .jobj [("action", .jstr "getDevices")]

/-- A remote device list longer than the truncation limit. -/
def twelveDevices : List JVal := List.replicate 12 sampleDevice

/-- An oracle answering every request with the twelve-device list. -/
def oracleDevices : Request → Except String JVal :=
  fun _ => .ok (.jarr twelveDevices)

/-- A transport that rejects one key and accepts every other. -/
def fetchScript : String → Except String JVal :=
  fun k => if k = "bad-key" then .error authFailMsg else .ok (.jarr [])

/-- A `JSON.parse` model that always yields a listJobs plan. -/
def listJobsParse : String → Option JVal :=
  fun _ => some (.jobj [("action", .jstr "listJobs")])

/-- An oracle that rejects every request with the authentication failure. -/
def oracleAuthFail : Request → Except String JVal :=
  fun _ => .error authFailMsg

/-! ### Scanning lemmas -/

theorem headMatches_iff (pat : List Char) :
    ∀ cs, headMatches pat cs = true ↔ ∃ t, cs = pat ++ t := by
  induction pat with
  | nil =>
    intro cs
    simp [headMatches]
  | cons p ps ih =>
    intro cs
    cases cs with
    | nil => simp [headMatches]
    | cons c cs' =>
      simp only [headMatches, Bool.and_eq_true, decide_eq_true_eq, ih,
        List.cons_append, List.cons.injEq]
      constructor
      · rintro ⟨hpc, t, ht⟩
        exact ⟨t, hpc.symm, ht⟩
      · rintro ⟨t, hcp, ht⟩
        exact ⟨hcp.symm, t, ht⟩

theorem afterFirst_eq_none_iff (pat : List Char) :
    ∀ s, afterFirst pat s = none ↔ ∀ pre post, s ≠ pre ++ (pat ++ post) := by
  intro s
  induction s with
  | nil =>
    have hme : headMatches pat [] = true ↔ pat = [] := by
      rw [headMatches_iff]
      constructor
      · rintro ⟨t, ht⟩
        cases pat with
        | nil => rfl
        | cons a as => simp at ht
      · intro hp
        exact ⟨[], by simp [hp]⟩
    constructor
    · intro h pre post heq
      have hp : pat = [] := by
        cases pre with
        | cons x xs => simp at heq
        | nil =>
          cases pat with
          | nil => rfl
          | cons a as => simp at heq
      have hsome : afterFirst pat [] = some [] := by
        simp [afterFirst, hme.mpr hp]
      rw [hsome] at h
      exact Option.noConfusion h
    · intro h
      have hnm : ¬ headMatches pat [] = true := by
        intro hmt
        exact h [] [] (by simp [hme.mp hmt])
      simp [afterFirst, hnm]
  | cons c cs ih =>
    by_cases hm : headMatches pat (c :: cs) = true
    · obtain ⟨t, ht⟩ := (headMatches_iff pat (c :: cs)).mp hm
      constructor
      · intro habs
        exfalso
        simp [afterFirst, hm] at habs
      · intro h
        exact absurd ht (by simpa using h [] t)
    · have hstep : afterFirst pat (c :: cs) = afterFirst pat cs := by
        simp [afterFirst, hm]
      rw [hstep, ih]
      constructor
      · intro h pre post heq
        cases pre with
        | nil =>
          exact hm ((headMatches_iff pat (c :: cs)).mpr ⟨post, by simpa using heq⟩)
        | cons x pre' =>
          simp only [List.cons_append] at heq
          exact h pre' post (by injection heq)
      · intro h pre post heq
        exact h (c :: pre) post (by simp [heq])

theorem scanQubit_eq_tails :
    ∀ cs : List Char, scanQubit cs = (cs.tails.filterMap matchQubitAt).head? := by
  intro cs
  induction cs with
  | nil =>
    have h0 : matchQubitAt [] = none := rfl
    simp [scanQubit, h0]
  | cons c cs ih =>
    cases h : matchQubitAt (c :: cs) with
    | some n => simp [scanQubit, h]
    | none => simp [scanQubit, h, ih]

theorem mem_replaceChar_elim {P : Char → Prop} (c : Char) (rep l : List Char)
    (hrep : ∀ ch ∈ rep, P ch) (hl : ∀ ch ∈ l, ch ≠ c → P ch) :
    ∀ ch ∈ replaceChar c rep l, P ch := by
  intro ch hch
  simp only [replaceChar, List.mem_flatMap] at hch
  obtain ⟨a, ha, hmem⟩ := hch
  by_cases hac : a = c
  · rw [if_pos hac] at hmem
    exact hrep ch hmem
  · rw [if_neg hac] at hmem
    simp only [List.mem_singleton] at hmem
    subst hmem
    exact hl ch ha hac

/-! ### Dispatch reduction lemmas -/

theorem execStep_snd (r : Except String JVal × List Request) (d : String) :
    (execStep r d).2 = r.2 := by
  obtain ⟨res, reqs⟩ := r
  cases res <;> rfl

theorem isNull_false_of_actionOf {plan : JVal} {a : String}
    (h : actionOf plan = a) (ha : a ≠ "") : plan.isNull = false := by
  cases plan with
  | jnull => exact absurd (h.symm.trans rfl) ha
  | jbool b => rfl
  | jnum n => rfl
  | jstr s => rfl
  | jarr xs => rfl
  | jobj fs => rfl

theorem validationFailed_isVF (d : String) (hd : d ≠ "") :
    (validationFailed d).1.isValidationFailure := by
  refine ⟨d, ?_, hd⟩
  simp [validationFailed, fixup, JVal.truthy, hd]

theorem dispatch_createJob_exec (respond : Request → Except String JVal) (plan : JVal)
    (h : actionOf plan = "createJob")
    (hdev : truthyOpt (jsGet plan "qbraidDeviceId") = true)
    (hsh : truthyOpt (jsGet plan "shots") = true)
    (henc : truthyOpt (jsGet plan "bitcode") = true ∨
            truthyOpt (jsGet plan "openQasm") = true) :
    dispatch respond plan =
      execStep
        (createQuantumJob respond ((jsGet plan "qbraidDeviceId").getD .jnull)
          ((jsGet plan "shots").getD .jnull)
          (jsGet plan "bitcode") (jsGet plan "openQasm")) "createJob" := by
  have hnn := isNull_false_of_actionOf h (by decide)
  cases henc with
  | inl hb => simp [dispatch, hnn, h, hdev, hsh, hb]
  | inr ho => simp [dispatch, hnn, h, hdev, hsh, ho]

theorem dispatch_createJob_invalid (respond : Request → Except String JVal) (plan : JVal)
    (h : actionOf plan = "createJob")
    (hbad : truthyOpt (jsGet plan "qbraidDeviceId") = false ∨
            truthyOpt (jsGet plan "shots") = false ∨
            (truthyOpt (jsGet plan "bitcode") = false ∧
             truthyOpt (jsGet plan "openQasm") = false)) :
    dispatch respond plan =
      validationFailed "Invalid createJob request: missing deviceId, shots, or code." := by
  have hnn := isNull_false_of_actionOf h (by decide)
  rcases hbad with hb | hb | ⟨hb1, hb2⟩
  · simp [dispatch, hnn, h, hb]
  · simp [dispatch, hnn, h, hb]
  · simp [dispatch, hnn, h, hb1, hb2]

theorem dispatch_getDevices_exec (respond : Request → Except String JVal) (plan : JVal)
    (h : actionOf plan = "getDevices") :
    dispatch respond plan =
      execStep (getQuantumDevices respond (jsGet plan "filters")) "getDevices" := by
  have hnn := isNull_false_of_actionOf h (by decide)
  simp [dispatch, hnn, h]

theorem createQuantumJob_both (respond : Request → Except String JVal)
    (dev shots : JVal) (bc oq : Option JVal)
    (hbc : truthyOpt bc = true) (hoq : truthyOpt oq = true) :
    createQuantumJob respond dev shots bc oq =
      (.error "Provide either bitcode OR openQasm (but not both) for createJob.", []) := by
  simp [createQuantumJob, hbc, hoq]

theorem createQuantumJob_bitcode_requests (respond : Request → Except String JVal)
    (dev shots : JVal) (oq : Option JVal) (code : String)
    (hc : code ≠ "") (hoq : truthyOpt oq = false) :
    (createQuantumJob respond dev shots (some (.jstr code)) oq).2 =
      [Request.createJob ⟨dev, shots, .jobj [], some (.jstr code), none, qubitCount code⟩] := by
  have ht : truthyOpt (some (JVal.jstr code)) = true := by
    simp [truthyOpt, JVal.truthy, hc]
  simp only [createQuantumJob, ht, hoq, Bool.not_true, Bool.not_false, Bool.false_and,
    Bool.and_false, Bool.or_self, Bool.false_eq_true, if_false, if_true]
  cases respond (Request.createJob
      ⟨dev, shots, .jobj [], some (.jstr code), none, qubitCount code⟩) <;> rfl

theorem createQuantumJob_openqasm_requests (respond : Request → Except String JVal)
    (dev shots : JVal) (bc : Option JVal) (code : String)
    (hc : code ≠ "") (hbc : truthyOpt bc = false) :
    (createQuantumJob respond dev shots bc (some (.jstr code))).2 =
      [Request.createJob ⟨dev, shots, .jobj [], none, some (.jstr code), qubitCount code⟩] := by
  have ht : truthyOpt (some (JVal.jstr code)) = true := by
    simp [truthyOpt, JVal.truthy, hc]
  simp only [createQuantumJob, ht, hbc, Bool.not_true, Bool.not_false, Bool.true_and,
    Bool.and_true, Bool.false_and, Bool.and_false, Bool.false_or, Bool.or_false,
    Bool.false_eq_true, if_false, if_true]
  cases respond (Request.createJob
      ⟨dev, shots, .jobj [], none, some (.jstr code), qubitCount code⟩) <;> rfl

theorem getQuantumDevices_requests (respond : Request → Except String JVal)
    (filters : Option JVal) :
    (getQuantumDevices respond filters).2 =
      [Request.getDevices (deviceParams filters)] := by
  simp only [getQuantumDevices]
  cases respond (Request.getDevices (deviceParams filters)) with
  | error e => rfl
  | ok v => cases v <;> rfl

theorem errorCount_catchPosted (e : String) :
    errorCount (Msg.typing :: catchPosted e) ≤ 1 := by
  by_cases ha : isAuthError e = true
  · simp [catchPosted, ha, errorCount, List.countP_cons, Msg.isErrorMsg]
  · simp [catchPosted, ha, errorCount, List.countP_cons, Msg.isErrorMsg]

/-! ### Claim C1 -/

/-- C1 counterexample: for the createJob plan with BOTH encoding fields
present (and device id and shots valid), the dispatcher does not produce a
ValidationFailure outcome: the executor is entered and throws its own
validation error, which propagates as a thrown (terminal) failure.  The
claimed conjunction "ValidationFailure outcome and zero network calls"
fails on its first half at this input. -/
theorem c1_both_encodings_counterexample :
    dispatch oracleFail bothEncodingsPlan =
      (.threw "Provide either bitcode OR openQasm (but not both) for createJob.", []) ∧
    ¬ (dispatch oracleFail bothEncodingsPlan).1.isValidationFailure := by
  refine ⟨rfl, ?_⟩
  rintro ⟨d, hd, hne⟩
  have h1 : (dispatch oracleFail bothEncodingsPlan).1 =
      .threw "Provide either bitcode OR openQasm (but not both) for createJob." := rfl
  rw [h1] at hd
  exact DispatchOutcome.noConfusion hd

/-- C1 (amended): for every createJob plan in which the two circuit-encoding
fields are both present or both absent, zero network requests are issued.
With neither encoding present the dispatcher's own guard yields a
ValidationFailure outcome; with both present (and device id and shots
truthy) the executor is invoked but throws its validation error before
issuing the network request, surfacing as a thrown error rather than a
ValidationFailure. -/
theorem c1_both_or_neither_amended (respond : Request → Except String JVal) (plan : JVal)
    (h : actionOf plan = "createJob")
    (hbn : truthyOpt (jsGet plan "bitcode") = truthyOpt (jsGet plan "openQasm")) :
    (dispatch respond plan).2 = [] ∧
    (truthyOpt (jsGet plan "bitcode") = false →
      (dispatch respond plan).1.isValidationFailure) ∧
    (truthyOpt (jsGet plan "bitcode") = true →
     truthyOpt (jsGet plan "qbraidDeviceId") = true →
     truthyOpt (jsGet plan "shots") = true →
      (dispatch respond plan).1 =
        .threw "Provide either bitcode OR openQasm (but not both) for createJob.") := by
  cases hb : truthyOpt (jsGet plan "bitcode") with
  | false =>
    have hoq : truthyOpt (jsGet plan "openQasm") = false := by rw [← hbn]; exact hb
    have hd := dispatch_createJob_invalid respond plan h (Or.inr (Or.inr ⟨hb, hoq⟩))
    refine ⟨by rw [hd]; rfl, fun _ => by rw [hd]; exact validationFailed_isVF _ (by decide), ?_⟩
    intro hcontra
    exact absurd hcontra (by decide)
  | true =>
    have hoq : truthyOpt (jsGet plan "openQasm") = true := by rw [← hbn]; exact hb
    refine ⟨?_, ?_, ?_⟩
    · cases hdev : truthyOpt (jsGet plan "qbraidDeviceId") with
      | false => rw [dispatch_createJob_invalid respond plan h (Or.inl hdev)]; rfl
      | true =>
        cases hsh : truthyOpt (jsGet plan "shots") with
        | false => rw [dispatch_createJob_invalid respond plan h (Or.inr (Or.inl hsh))]; rfl
        | true =>
          rw [dispatch_createJob_exec respond plan h hdev hsh (Or.inl hb), execStep_snd,
            createQuantumJob_both respond _ _ _ _ hb hoq]
    · intro hcontra
      exact absurd hcontra (by decide)
    · intro _ hdev hsh
      rw [dispatch_createJob_exec respond plan h hdev hsh (Or.inl hb),
        createQuantumJob_both respond _ _ _ _ hb hoq]
      rfl

/-- C1 witness: the amended theorem applied at the concrete both-encodings
plan. -/
theorem c1_both_or_neither_amended_witness :
    (dispatch oracleFail bothEncodingsPlan).2 = [] ∧
    (dispatch oracleFail bothEncodingsPlan).1 =
      .threw "Provide either bitcode OR openQasm (but not both) for createJob." := by
  have h := c1_both_or_neither_amended oracleFail bothEncodingsPlan rfl rfl
  exact ⟨h.1, h.2.2 rfl rfl rfl⟩

/-! ### Claim C2 -/

/-- C2 counterexample: for the plan with action `"none"`, the dispatcher
completes with a null raw response and an empty action description — it
does not produce a ValidationFailure outcome at all, let alone one with
description "no recognized action" (which appears nowhere; the log line is
"No recognized action.").  No executor is invoked, as the empty request
list shows. -/
theorem c2_unknown_action_counterexample :
    dispatch oracleFail nonePlan = (.completed .jnull "", []) ∧
    ¬ (dispatch oracleFail nonePlan).1.isValidationFailure := by
  refine ⟨rfl, ?_⟩
  rintro ⟨d, hd, hne⟩
  have h1 : (dispatch oracleFail nonePlan).1 = .completed .jnull "" := rfl
  rw [h1] at hd
  injection hd with h2 h3
  exact hne h3.symm

/-- C2 (amended): for every non-null plan whose action is `"none"` or any
string outside the enumerated action kinds, the dispatcher invokes no
executor and issues no network request, but it produces no ValidationFailure
outcome: the raw response stays null and the action description stays
empty (only a log line is emitted). -/
theorem c2_unknown_action_amended (respond : Request → Except String JVal) (plan : JVal)
    (hnn : plan.isNull = false)
    (h : actionOf plan ∉ ["createJob", "listJobs", "cancelJob", "deleteJob",
                          "getDevices", "sendChat", "getModels"]) :
    dispatch respond plan = (.completed .jnull "", []) := by
  simp only [List.mem_cons, List.not_mem_nil, or_false, not_or] at h
  obtain ⟨h1, h2, h3, h4, h5, h6, h7⟩ := h
  simp [dispatch, hnn, h1, h2, h3, h4, h5, h6, h7, fixup]

/-- C2 witness: the amended theorem applied at a plan with an unrecognized
action string. -/
theorem c2_unknown_action_amended_witness :
    dispatch oracleFail (.jobj [("action", .jstr "frobnicate")]) =
      (.completed .jnull "", []) :=
  c2_unknown_action_amended oracleFail (.jobj [("action", .jstr "frobnicate")])
    rfl (by decide)

/-! ### Claim C6 -/

/-- C6 counterexample: a createJob plan with a negative shot count
(`shots: -5`) passes the dispatcher's guard (JavaScript truthiness only
rejects falsy values such as 0), so the executor is invoked and its network
request is issued with the negative shot count; the outcome is not a
ValidationFailure.  The claim that a negative shots value is rejected with
a ValidationFailure and no executor call is false on this input. -/
theorem c6_negative_shots_counterexample :
    (dispatch oracleJob negativeShotsPlan).2 =
      [Request.createJob ⟨.jstr "device-1", .jnum (-5), .jobj [], none,
        some (.jstr "OPENQASM 3;qubit[2] q;"), 2⟩] ∧
    ¬ (dispatch oracleJob negativeShotsPlan).1.isValidationFailure := by
  refine ⟨rfl, ?_⟩
  rintro ⟨d, hd, hne⟩
  have h1 : (dispatch oracleJob negativeShotsPlan).1 =
      .completed (.jobj [("_id", .jstr "job-1")]) "createJob" := rfl
  rw [h1] at hd
  injection hd with hraw hdesc
  injection hraw with hfields
  injection hfields with hpair
  have hfst := congrArg Prod.fst hpair
  simp at hfst

/-- C6 (amended): the createJob validator accepts the plan only if the shot
count is present and truthy (a nonzero number); a missing or zero shots
value is rejected with a ValidationFailure and no executor call, but a
negative shots value passes validation and the executor's network request
is issued carrying it. -/
theorem c6_shots_truthiness_amended (respond : Request → Except String JVal) (plan : JVal)
    (h : actionOf plan = "createJob") :
    (truthyOpt (jsGet plan "shots") = false →
      (dispatch respond plan).1.isValidationFailure ∧ (dispatch respond plan).2 = []) ∧
    (∀ n : Int, jsGet plan "shots" = some (.jnum n) → n ≠ 0 →
     truthyOpt (jsGet plan "qbraidDeviceId") = true →
     ∀ code : String, jsGet plan "bitcode" = some (.jstr code) → code ≠ "" →
     truthyOpt (jsGet plan "openQasm") = false →
      (dispatch respond plan).2 =
        [Request.createJob ⟨(jsGet plan "qbraidDeviceId").getD .jnull, .jnum n,
          .jobj [], some (.jstr code), none, qubitCount code⟩]) := by
  constructor
  · intro hsh
    have hd := dispatch_createJob_invalid respond plan h (Or.inr (Or.inl hsh))
    exact ⟨by rw [hd]; exact validationFailed_isVF _ (by decide), by rw [hd]; rfl⟩
  · intro n hn hn0 hdev code hbc hc hoq
    have hsh : truthyOpt (jsGet plan "shots") = true := by
      simp [hn, truthyOpt, JVal.truthy, hn0]
    have hbt : truthyOpt (jsGet plan "bitcode") = true := by
      simp [hbc, truthyOpt, JVal.truthy, hc]
    rw [dispatch_createJob_exec respond plan h hdev hsh (Or.inl hbt), execStep_snd,
      hbc, hn]
    simpa using createQuantumJob_bitcode_requests respond
      ((jsGet plan "qbraidDeviceId").getD .jnull) (.jnum n) (jsGet plan "openQasm")
      code hc hoq

/-- C6 witness: the amended theorem applied at a zero-shots plan (rejected)
and at a valid single-encoding plan (request issued). -/
theorem c6_shots_truthiness_amended_witness :
    ((dispatch oracleFail zeroShotsPlan).1.isValidationFailure ∧
      (dispatch oracleFail zeroShotsPlan).2 = []) ∧
    (dispatch oracleJob okCreatePlan).2 =
      [Request.createJob ⟨.jstr "device-1", .jnum 50, .jobj [],
        some (.jstr "OPENQASM 3.0;\nqubit[4] q;\nh q;"), none, 4⟩] := by
  constructor
  · exact (c6_shots_truthiness_amended oracleFail zeroShotsPlan rfl).1 rfl
  · exact (c6_shots_truthiness_amended oracleJob okCreatePlan rfl).2 50 rfl
      (by decide) rfl "OPENQASM 3.0;\nqubit[4] q;\nh q;" rfl (by decide) rfl

/-! ### Claim C5 -/

/-- C5: for every first-model reply without a fenced json block (stated
both spec-side, as the absence of any occurrence of the opening fence, and
code-side, as failure of the fence extraction), and for every reply whose
first fenced block's content fails to parse, plan extraction yields exactly
the default plan with action `"none"`; the extraction is a total function,
so no error reaches the caller. -/
theorem c5_plan_extraction_fallback (parse : String → Option JVal) (reply : String) :
    ((∀ pre post : List Char, reply.toList ≠ pre ++ ("```json".toList ++ post)) →
      extractPlan parse reply = defaultPlan) ∧
    (extractFenced reply = none → extractPlan parse reply = defaultPlan) ∧
    (∀ content : String, extractFenced reply = some content →
      parse content.trim = none → extractPlan parse reply = defaultPlan) := by
  refine ⟨?_, ?_, ?_⟩
  · intro h
    have hnone : afterFirst ("```json".toList) reply.toList = none :=
      (afterFirst_eq_none_iff _ _).mpr h
    unfold extractPlan extractFenced
    rw [hnone]
  · intro h
    simp [extractPlan, h]
  · intro content hc hp
    simp [extractPlan, hc, hp]

/-- C5 witness: the fallback at a reply with no fence at all (spec-side
hypothesis discharged through the no-occurrence characterisation) and at a
reply whose fenced content does not parse. -/
theorem c5_plan_extraction_fallback_witness :
    extractPlan parseNone "hello there" = defaultPlan ∧
    extractPlan parseNone "```json not-json```" = defaultPlan := by
  constructor
  · exact (c5_plan_extraction_fallback parseNone "hello there").1
      ((afterFirst_eq_none_iff _ _).mp rfl)
  · exact (c5_plan_extraction_fallback parseNone "```json not-json```").2.2
      " not-json" rfl rfl

/-! ### Claim C7 -/

/-- C7: for every getDevices plan with a truthy parameter map, the executor
issues exactly one request whose parameters are the map's entries
restricted to the allow-list: a pair survives iff it is an entry of the
map and its key is allowed; keys outside the allow-list are dropped while
the request is still issued.  The concrete conjunct shows the spec's
example: provider AWS kept, bogus dropped. -/
theorem c7_device_filter_allowlist (respond : Request → Except String JVal)
    (plan f : JVal)
    (h : actionOf plan = "getDevices")
    (hf : jsGet plan "filters" = some f) (hft : f.truthy = true) :
    (dispatch respond plan).2 =
      [Request.getDevices
        ((jsEntries f).filter (fun kv => allowedFilters.contains kv.1))] ∧
    (∀ (k : String) (v : JVal),
      (k, v) ∈ (jsEntries f).filter (fun kv => allowedFilters.contains kv.1) ↔
        ((k, v) ∈ jsEntries f ∧ k ∈ allowedFilters)) ∧
    (dispatch oracleFail awsBogusPlan).2 =
      [Request.getDevices [("provider", .jstr "AWS")]] := by
  refine ⟨?_, ?_, rfl⟩
  · rw [dispatch_getDevices_exec respond plan h, execStep_snd,
      getQuantumDevices_requests]
    simp [deviceParams, hf, hft]
  · intro k v
    simp [List.mem_filter, List.contains, List.elem_iff]

/-- C7 witness: the theorem applied at the concrete AWS/bogus plan. -/
theorem c7_device_filter_allowlist_witness :
    (dispatch oracleFail awsBogusPlan).2 =
      [Request.getDevices [("provider", .jstr "AWS")]] ∧
    (("provider", JVal.jstr "AWS") ∈ jsEntries
        (.jobj [("provider", .jstr "AWS"), ("bogus", .jstr "x")]) ∧
      "provider" ∈ allowedFilters) := by
  have h := c7_device_filter_allowlist oracleFail awsBogusPlan
    (.jobj [("provider", .jstr "AWS"), ("bogus", .jstr "x")]) rfl rfl rfl
  exact ⟨h.2.2, (h.2.1 "provider" (.jstr "AWS")).mp (List.Mem.head _)⟩

/-! ### Claim C8 -/

/-- C8: for every successful getDevices call whose remote response is an
array of valid device objects, the payload handed on is the response
truncated to its first 10 elements (`slice(0, 10)`), so at most 10 devices
reach the caller regardless of the remote list's length. -/
theorem c8_devices_truncated (respond : Request → Except String JVal)
    (plan : JVal) (xs : List JVal)
    (h : actionOf plan = "getDevices")
    (hresp : respond (Request.getDevices (deviceParams (jsGet plan "filters"))) =
      .ok (.jarr xs))
    (hall : xs.all isQuantumDevice = true) :
    (dispatch respond plan).1 = .completed (.jarr (xs.take 10)) "getDevices" ∧
    (xs.take 10).length ≤ 10 := by
  constructor
  · rw [dispatch_getDevices_exec respond plan h]
    simp only [getQuantumDevices, hresp, hall, if_true, execStep]
    simp [fixup, JVal.truthy]
  · simp [List.length_take]

/-- C8 witness: the theorem applied at a twelve-device remote response. -/
theorem c8_devices_truncated_witness :
    (dispatch oracleDevices getDevicesPlan).1 =
      .completed (.jarr (twelveDevices.take 10)) "getDevices" ∧
    (twelveDevices.take 10).length ≤ 10 :=
  c8_devices_truncated oracleDevices getDevicesPlan twelveDevices rfl rfl rfl

/-! ### Claim C9 -/

/-- C9: for every string input, `escapeHtml` produces a string containing
no raw less-than, greater-than, double-quote or single-quote character
(the ampersand is escaped first, as the concrete evaluations show); for
every non-string input the value is returned unchanged despite the
declared string return type. -/
theorem c9_escape_html :
    (∀ s : String, ∀ ch ∈ (escapeHtmlString s).toList,
      ch ≠ '<' ∧ ch ≠ '>' ∧ ch ≠ dquoteChar ∧ ch ≠ squoteChar) ∧
    (∀ v : JVal, v.isString = false → escapeHtml v = v) ∧
    escapeHtmlString "&" = "&amp;" ∧
    escapeHtmlString "<i>" = "&lt;i&gt;" ∧
    escapeHtmlString (String.mk [dquoteChar, squoteChar]) = "&quot;&#039;" := by
  refine ⟨?_, ?_, rfl, rfl, rfl⟩
  · intro s ch hch
    have h2 : ∀ ch ∈ replaceChar '<' ("&lt;".toList)
        (replaceChar '&' ("&amp;".toList) s.toList), ch ≠ '<' :=
      mem_replaceChar_elim '<' _ _ (by decide) (fun _ _ hne => hne)
    have h3 : ∀ ch ∈ replaceChar '>' ("&gt;".toList)
        (replaceChar '<' ("&lt;".toList)
          (replaceChar '&' ("&amp;".toList) s.toList)), ch ≠ '<' ∧ ch ≠ '>' :=
      mem_replaceChar_elim '>' _ _ (by decide)
        (fun ch hm hne => ⟨h2 ch hm, hne⟩)
    have h4 : ∀ ch ∈ replaceChar dquoteChar ("&quot;".toList)
        (replaceChar '>' ("&gt;".toList)
          (replaceChar '<' ("&lt;".toList)
            (replaceChar '&' ("&amp;".toList) s.toList))),
        ch ≠ '<' ∧ ch ≠ '>' ∧ ch ≠ dquoteChar :=
      mem_replaceChar_elim dquoteChar _ _ (by decide)
        (fun ch hm hne => ⟨(h3 ch hm).1, (h3 ch hm).2, hne⟩)
    have h5 : ∀ ch ∈ replaceChar squoteChar ("&#039;".toList)
        (replaceChar dquoteChar ("&quot;".toList)
          (replaceChar '>' ("&gt;".toList)
            (replaceChar '<' ("&lt;".toList)
              (replaceChar '&' ("&amp;".toList) s.toList)))),
        ch ≠ '<' ∧ ch ≠ '>' ∧ ch ≠ dquoteChar ∧ ch ≠ squoteChar :=
      mem_replaceChar_elim squoteChar _ _ (by decide)
        (fun ch hm hne =>
          ⟨(h4 ch hm).1, (h4 ch hm).2.1, (h4 ch hm).2.2, hne⟩)
    exact h5 ch hch
  · intro v hv
    cases v with
    | jstr s => exact absurd hv (by simp [JVal.isString])
    | jnull => rfl
    | jbool b => rfl
    | jnum n => rfl
    | jarr xs => rfl
    | jobj fs => rfl

/-- C9 witness: the no-specials property at a concrete character of a
concrete escaped string, and the identity on a concrete non-string. -/
theorem c9_escape_html_witness :
    ('a' ≠ '<' ∧ 'a' ≠ '>' ∧ 'a' ≠ dquoteChar ∧ 'a' ≠ squoteChar) ∧
    escapeHtml (.jnum 7) = .jnum 7 :=
  ⟨c9_escape_html.1 "a<b" 'a' (by decide), c9_escape_html.2.1 (.jnum 7) rfl⟩

/-! ### Claim C10 -/

/-- C10: for every createJob executor call with exactly one truthy
circuit-encoding string supplied, the issued request's `circuitNumQubits`
equals the captured count of the leftmost occurrence of the pattern
`qubit[N]` in that encoding (characterised through the suffix scan:
`scanQubit` equals the head of the matches over all suffixes in order),
and defaults to 1 when the pattern does not occur, as the concrete
evaluations show. -/
theorem c10_circuit_num_qubits :
    (∀ (respond : Request → Except String JVal) (plan : JVal) (code : String),
      actionOf plan = "createJob" →
      truthyOpt (jsGet plan "qbraidDeviceId") = true →
      truthyOpt (jsGet plan "shots") = true →
      jsGet plan "bitcode" = some (.jstr code) → code ≠ "" →
      truthyOpt (jsGet plan "openQasm") = false →
      (dispatch respond plan).2 =
        [Request.createJob ⟨(jsGet plan "qbraidDeviceId").getD .jnull,
          (jsGet plan "shots").getD .jnull, .jobj [],
          some (.jstr code), none, qubitCount code⟩]) ∧
    (∀ (respond : Request → Except String JVal) (plan : JVal) (code : String),
      actionOf plan = "createJob" →
      truthyOpt (jsGet plan "qbraidDeviceId") = true →
      truthyOpt (jsGet plan "shots") = true →
      truthyOpt (jsGet plan "bitcode") = false →
      jsGet plan "openQasm" = some (.jstr code) → code ≠ "" →
      (dispatch respond plan).2 =
        [Request.createJob ⟨(jsGet plan "qbraidDeviceId").getD .jnull,
          (jsGet plan "shots").getD .jnull, .jobj [],
          none, some (.jstr code), qubitCount code⟩]) ∧
    (∀ code : String,
      qubitCount code =
        ((code.toList.tails.filterMap matchQubitAt).head?).getD 1) ∧
    qubitCount "OPENQASM 3.0;\nqubit[4] q;\nh q;" = 4 ∧
    qubitCount "qubit[12] a; qubit[3] b;" = 12 ∧
    qubitCount "OPENQASM 2.0; qreg q[3];" = 1 := by
  refine ⟨?_, ?_, ?_, rfl, rfl, rfl⟩
  · intro respond plan code h hdev hsh hbc hc hoq
    have hbt : truthyOpt (jsGet plan "bitcode") = true := by
      simp [hbc, truthyOpt, JVal.truthy, hc]
    rw [dispatch_createJob_exec respond plan h hdev hsh (Or.inl hbt), execStep_snd, hbc]
    exact createQuantumJob_bitcode_requests respond _ _ _ code hc hoq
  · intro respond plan code h hdev hsh hbc hoq hc
    have hot : truthyOpt (jsGet plan "openQasm") = true := by
      simp [hoq, truthyOpt, JVal.truthy, hc]
    rw [dispatch_createJob_exec respond plan h hdev hsh (Or.inr hot), execStep_snd, hoq]
    exact createQuantumJob_openqasm_requests respond _ _ _ code hc hbc
  · intro code
    rw [qubitCount, scanQubit_eq_tails]

/-- C10 witness: the bitcode branch applied at the concrete valid plan. -/
theorem c10_circuit_num_qubits_witness :
    (dispatch oracleJob okCreatePlan).2 =
      [Request.createJob ⟨.jstr "device-1", .jnum 50, .jobj [],
        some (.jstr "OPENQASM 3.0;\nqubit[4] q;\nh q;"), none,
        qubitCount "OPENQASM 3.0;\nqubit[4] q;\nh q;"⟩] :=
  c10_circuit_num_qubits.1 oracleJob okCreatePlan "OPENQASM 3.0;\nqubit[4] q;\nh q;"
    rfl rfl rfl rfl (by decide) rfl

/-! ### Claim C3 -/

/-- C3 counterexample: the planning step of the sendMessage pipeline fails
with an authentication error, the user accepts the dialog and supplies a
new credential — yet the run ends with the planning call executed exactly
once, the final call never executed, no answer posted (only `typing`), and
an informational popup asking the user to retry manually.  The failed step
is not re-run with the new credential, so the claimed single-step retry is
false for this pipeline step. -/
theorem c3_no_pipeline_retry_counterexample :
    handleSendMessage (some "key-1") (.error authFailMsg) parseNone oracleFail
      (.ok "answer") true (some "key-2") =
      ⟨[.typing], [], 1, 0,
        some "qBraid API Key updated. Please retry your request."⟩ := by
  rfl

/-- C3 (amended): the one-shot credential retry exists only in the
models-fetch handler: there, after an authentication failure and a supplied
new credential, the fetch is re-run exactly once with the new key (the key
trace is `[k, k2]`); if that retry also fails the error is surfaced with no
further call.  The sendMessage pipeline re-runs nothing after a credential
update, whichever of its three steps failed with the authentication error:
a failed planning call leaves one planning call and no final call; a
dispatch step that threw leaves one planning call, exactly the one dispatch
pass of network requests and no final call; a failed final call leaves one
planning call and one final call.  In each case the handler ends with only
the typing indicator posted and a popup telling the user to retry
manually. -/
theorem c3_retry_scope_amended :
    (∀ (fetch : String → Except String JVal) (k k2 e : String) (v : JVal),
      fetch k = .error e → isAuthError e = true → fetch k2 = .ok v →
      handleFetchModels (some k) fetch true (some k2) =
        ⟨[.clearError, .models v], [k, k2],
         some "qBraid API Key updated and models fetched successfully."⟩) ∧
    (∀ (fetch : String → Except String JVal) (k k2 e e2 : String),
      fetch k = .error e → isAuthError e = true → fetch k2 = .error e2 →
      handleFetchModels (some k) fetch true (some k2) =
        ⟨[.error e2], [k, k2], none⟩) ∧
    (∀ (parse : String → Option JVal) (respond : Request → Except String JVal)
       (fr : Except String String) (k k2 e : String),
      isAuthError e = true →
      handleSendMessage (some k) (.error e) parse respond fr true (some k2) =
        ⟨[.typing], [], 1, 0,
         some "qBraid API Key updated. Please retry your request."⟩) ∧
    (∀ (parse : String → Option JVal) (respond : Request → Except String JVal)
       (reply : String) (fr : Except String String) (k k2 e : String),
      (dispatch respond (extractPlan parse reply)).1 = .threw e →
      isAuthError e = true →
      handleSendMessage (some k) (.ok reply) parse respond fr true (some k2) =
        ⟨[.typing], (dispatch respond (extractPlan parse reply)).2, 1, 0,
         some "qBraid API Key updated. Please retry your request."⟩) ∧
    (∀ (parse : String → Option JVal) (respond : Request → Except String JVal)
       (reply : String) (raw : JVal) (d : String) (k k2 e : String),
      (dispatch respond (extractPlan parse reply)).1 = .completed raw d →
      isAuthError e = true →
      handleSendMessage (some k) (.ok reply) parse respond (.error e) true (some k2) =
        ⟨[.typing], (dispatch respond (extractPlan parse reply)).2, 1, 1,
         some "qBraid API Key updated. Please retry your request."⟩) := by
  refine ⟨?_, ?_, ?_, ?_, ?_⟩
  · intro fetch k k2 e v hk hauth hk2
    simp [handleFetchModels, hk, hauth, hk2]
  · intro fetch k k2 e e2 hk hauth hk2
    simp [handleFetchModels, hk, hauth, hk2]
  · intro parse respond fr k k2 e hauth
    simp [handleSendMessage, catchPosted, catchInfo, hauth]
  · intro parse respond reply fr k k2 e hdisp hauth
    simp only [handleSendMessage, hdisp]
    simp [catchPosted, catchInfo, hauth]
  · intro parse respond reply raw d k k2 e hdisp hauth
    simp only [handleSendMessage, hdisp]
    simp [catchPosted, catchInfo, hauth]

/-- C3 witness: the amended theorem applied at a concrete two-key fetch
script and at concrete authentication failures of each of the three
sendMessage steps (planning call, dispatch, final call). -/
theorem c3_retry_scope_amended_witness :
    handleFetchModels (some "bad-key") fetchScript true (some "good-key") =
      ⟨[.clearError, .models (.jarr [])], ["bad-key", "good-key"],
       some "qBraid API Key updated and models fetched successfully."⟩ ∧
    handleSendMessage (some "bad-key") (.error authFailMsg) parseNone oracleFail
      (.ok "hi") true (some "good-key") =
      ⟨[.typing], [], 1, 0,
       some "qBraid API Key updated. Please retry your request."⟩ ∧
    handleSendMessage (some "k") (.ok "```json x```") listJobsParse oracleAuthFail
      (.ok "hi") true (some "k2") =
      ⟨[.typing], [.listJobs], 1, 0,
       some "qBraid API Key updated. Please retry your request."⟩ ∧
    handleSendMessage (some "k") (.ok "no fence") parseNone oracleFail
      (.error authFailMsg) true (some "k2") =
      ⟨[.typing], [], 1, 1,
       some "qBraid API Key updated. Please retry your request."⟩ := by
  refine ⟨?_, ?_, ?_, ?_⟩
  · exact c3_retry_scope_amended.1 fetchScript "bad-key" "good-key" authFailMsg
      (.jarr []) rfl rfl rfl
  · exact c3_retry_scope_amended.2.2.1 parseNone oracleFail (.ok "hi")
      "bad-key" "good-key" authFailMsg rfl
  · exact c3_retry_scope_amended.2.2.2.1 listJobsParse oracleAuthFail
      "```json x```" (.ok "hi") "k" "k2" authFailMsg rfl rfl
  · exact c3_retry_scope_amended.2.2.2.2 parseNone oracleFail "no fence"
      .jnull "" "k" "k2" authFailMsg rfl rfl

/-! ### Claim C4 -/

/-- C4 counterexample: the missing-API-key run is a terminal failure that
posts exactly one `error` message, but it is the very first message posted
— no `clearError` precedes it.  The claimed clearError-before-error shape
is false for this terminal failure. -/
theorem c4_missing_key_counterexample :
    (handleSendMessage none (.ok "reply") parseNone oracleFail (.ok "ans")
      false none).posted = [.error "API key not found."] ∧
    errorCount [Msg.error "API key not found."] = 1 ∧
    errorsPrecededByClear [Msg.error "API key not found."] = false := by
  exact ⟨rfl, rfl, rfl⟩

/-- C4 (amended): every run of either handler posts at most one `error`
message, and exactly one immediately preceded by `clearError` only when
the failure is a non-authentication error raised after the API-key check
(any of the three sendMessage steps, or the fetch in fetchModels).  The
missing-key check in either handler posts a single unpreceded `error`; an
authentication failure in sendMessage posts no `error` at all whatever the
dialog outcome (declined or key updated), at whichever step it arises; an
authentication failure in fetchModels with the dialog declined or no new
key supplied posts nothing; and fetchModels' failed retry after a key
update posts a single `error` without `clearError`. -/
theorem c4_error_reporting_amended :
    (∀ (apiKey : Option String) (planReply : Except String String)
       (parse : String → Option JVal) (respond : Request → Except String JVal)
       (fr : Except String String) (ua : Bool) (nk : Option String),
      errorCount (handleSendMessage apiKey planReply parse respond fr ua nk).posted ≤ 1) ∧
    (∀ (apiKey : Option String) (fetch : String → Except String JVal)
       (ua : Bool) (nk : Option String),
      errorCount (handleFetchModels apiKey fetch ua nk).posted ≤ 1) ∧
    (∀ (parse : String → Option JVal) (respond : Request → Except String JVal)
       (fr : Except String String) (ua : Bool) (nk : Option String) (k e : String),
      isAuthError e = false →
      (handleSendMessage (some k) (.error e) parse respond fr ua nk).posted =
        [.typing, .clearError, .error e] ∧
      errorCount [Msg.typing, Msg.clearError, Msg.error e] = 1 ∧
      errorsPrecededByClear [Msg.typing, Msg.clearError, Msg.error e] = true) ∧
    (∀ (parse : String → Option JVal) (respond : Request → Except String JVal)
       (reply : String) (fr : Except String String) (ua : Bool)
       (nk : Option String) (k e : String),
      (dispatch respond (extractPlan parse reply)).1 = .threw e →
      isAuthError e = false →
      (handleSendMessage (some k) (.ok reply) parse respond fr ua nk).posted =
        [.typing, .clearError, .error e]) ∧
    (∀ (parse : String → Option JVal) (respond : Request → Except String JVal)
       (reply : String) (raw : JVal) (d : String) (ua : Bool)
       (nk : Option String) (k e : String),
      (dispatch respond (extractPlan parse reply)).1 = .completed raw d →
      isAuthError e = false →
      (handleSendMessage (some k) (.ok reply) parse respond (.error e) ua nk).posted =
        [.typing, .clearError, .error e]) ∧
    (∀ (parse : String → Option JVal) (respond : Request → Except String JVal)
       (planReply : Except String String) (fr : Except String String)
       (ua : Bool) (nk : Option String),
      (handleSendMessage none planReply parse respond fr ua nk).posted =
        [.error "API key not found."] ∧
      errorsPrecededByClear [Msg.error "API key not found."] = false) ∧
    (∀ (parse : String → Option JVal) (respond : Request → Except String JVal)
       (fr : Except String String) (ua : Bool) (nk : Option String) (k e : String),
      isAuthError e = true →
      (handleSendMessage (some k) (.error e) parse respond fr ua nk).posted =
        [.typing]) ∧
    (∀ (parse : String → Option JVal) (respond : Request → Except String JVal)
       (reply : String) (fr : Except String String) (ua : Bool)
       (nk : Option String) (k e : String),
      (dispatch respond (extractPlan parse reply)).1 = .threw e →
      isAuthError e = true →
      (handleSendMessage (some k) (.ok reply) parse respond fr ua nk).posted =
        [.typing]) ∧
    (∀ (parse : String → Option JVal) (respond : Request → Except String JVal)
       (reply : String) (raw : JVal) (d : String) (ua : Bool)
       (nk : Option String) (k e : String),
      (dispatch respond (extractPlan parse reply)).1 = .completed raw d →
      isAuthError e = true →
      (handleSendMessage (some k) (.ok reply) parse respond (.error e) ua nk).posted =
        [.typing]) ∧
    (∀ (fetch : String → Except String JVal) (ua : Bool) (nk : Option String),
      (handleFetchModels none fetch ua nk).posted =
        [.error "API key not found."]) ∧
    (∀ (fetch : String → Except String JVal) (ua : Bool) (nk : Option String)
       (k e : String),
      isAuthError e = false → fetch k = .error e →
      (handleFetchModels (some k) fetch ua nk).posted =
        [.clearError, .error e]) ∧
    (∀ (fetch : String → Except String JVal) (nk : Option String) (k e : String),
      fetch k = .error e → isAuthError e = true →
      (handleFetchModels (some k) fetch false nk).posted = []) ∧
    (∀ (fetch : String → Except String JVal) (k e : String),
      fetch k = .error e → isAuthError e = true →
      (handleFetchModels (some k) fetch true none).posted = []) ∧
    (∀ (fetch : String → Except String JVal) (k k2 e e2 : String),
      fetch k = .error e → isAuthError e = true → fetch k2 = .error e2 →
      (handleFetchModels (some k) fetch true (some k2)).posted = [.error e2]) := by
  refine ⟨?_, ?_, ?_, ?_, ?_, ?_, ?_, ?_, ?_, ?_, ?_, ?_, ?_, ?_⟩
  · intro apiKey planReply parse respond fr ua nk
    cases apiKey with
    | none => simp [handleSendMessage, errorCount, List.countP_cons, Msg.isErrorMsg]
    | some k =>
      cases planReply with
      | error e => exact errorCount_catchPosted e
      | ok reply =>
        cases hres : (dispatch respond (extractPlan parse reply)).1 with
        | threw e =>
          simp only [handleSendMessage, hres]
          exact errorCount_catchPosted e
        | completed raw d =>
          cases fr with
          | error e =>
            simp only [handleSendMessage, hres]
            exact errorCount_catchPosted e
          | ok ans =>
            simp only [handleSendMessage, hres]
            simp [errorCount, List.countP_cons, Msg.isErrorMsg]
  · intro apiKey fetch ua nk
    cases apiKey with
    | none => simp [handleFetchModels, errorCount, List.countP_cons, Msg.isErrorMsg]
    | some k =>
      cases hk : fetch k with
      | ok v => simp [handleFetchModels, hk, errorCount, List.countP_cons, Msg.isErrorMsg]
      | error e =>
        by_cases ha : isAuthError e = true
        · cases ua with
          | false => simp [handleFetchModels, hk, ha, errorCount]
          | true =>
            cases nk with
            | none => simp [handleFetchModels, hk, ha, errorCount]
            | some k2 =>
              cases hk2 : fetch k2 with
              | ok v2 =>
                simp [handleFetchModels, hk, ha, hk2, errorCount,
                  List.countP_cons, Msg.isErrorMsg]
              | error e2 =>
                simp [handleFetchModels, hk, ha, hk2, errorCount,
                  List.countP_cons, Msg.isErrorMsg]
        · simp [handleFetchModels, hk, ha, errorCount, List.countP_cons, Msg.isErrorMsg]
  · intro parse respond fr ua nk k e hna
    exact ⟨by simp [handleSendMessage, catchPosted, hna], rfl, rfl⟩
  · intro parse respond reply fr ua nk k e hdisp hna
    simp only [handleSendMessage, hdisp]
    simp [catchPosted, hna]
  · intro parse respond reply raw d ua nk k e hdisp hna
    simp only [handleSendMessage, hdisp]
    simp [catchPosted, hna]
  · intro parse respond planReply fr ua nk
    exact ⟨rfl, rfl⟩
  · intro parse respond fr ua nk k e hauth
    simp [handleSendMessage, catchPosted, hauth]
  · intro parse respond reply fr ua nk k e hdisp hauth
    simp only [handleSendMessage, hdisp]
    simp [catchPosted, hauth]
  · intro parse respond reply raw d ua nk k e hdisp hauth
    simp only [handleSendMessage, hdisp]
    simp [catchPosted, hauth]
  · intro fetch ua nk
    rfl
  · intro fetch ua nk k e hna hk
    simp [handleFetchModels, hk, hna]
  · intro fetch nk k e hk hauth
    simp [handleFetchModels, hk, hauth]
  · intro fetch k e hk hauth
    simp [handleFetchModels, hk, hauth]
  · intro fetch k k2 e e2 hk hauth hk2
    simp [handleFetchModels, hk, hauth, hk2]

/-- C4 witness: the amended theorem applied at concrete runs — the global
at-most-one-error bound, a non-auth planning failure, a missing-key run, a
sendMessage auth failure with the key updated, and a declined fetchModels
auth failure. -/
theorem c4_error_reporting_amended_witness :
    errorCount (handleSendMessage (some "k") (.error "network down") parseNone
      oracleFail (.ok "ans") false none).posted ≤ 1 ∧
    (handleSendMessage (some "k") (.error "network down") parseNone oracleFail
      (.ok "ans") false none).posted =
      [.typing, .clearError, .error "network down"] ∧
    (handleSendMessage none (.ok "hello") parseNone oracleFail (.ok "ans")
      true none).posted = [.error "API key not found."] ∧
    (handleSendMessage (some "k") (.error authFailMsg) parseNone oracleFail
      (.ok "ans") true (some "k2")).posted = [.typing] ∧
    (handleFetchModels (some "bad-key") fetchScript false none).posted = [] :=
  ⟨c4_error_reporting_amended.1 (some "k") (.error "network down") parseNone
      oracleFail (.ok "ans") false none,
   (c4_error_reporting_amended.2.2.1 parseNone oracleFail (.ok "ans") false none
      "k" "network down" rfl).1,
   (c4_error_reporting_amended.2.2.2.2.2.1 parseNone oracleFail (.ok "hello")
      (.ok "ans") true none).1,
   c4_error_reporting_amended.2.2.2.2.2.2.1 parseNone oracleFail (.ok "ans")
      true (some "k2") "k" authFailMsg rfl,
   c4_error_reporting_amended.2.2.2.2.2.2.2.2.2.2.2.1 fetchScript none
      "bad-key" authFailMsg rfl rfl⟩

end QbraidChat
